import Mathlib

/-!
Verification of the event-log delivery subsystem (event_logs/client.py,
event_logs/tasks.py, event_logs/models.py) against its specification.

The Python code is shallowly embedded: pure helpers become Lean functions,
the outbox table becomes a list of rows, the ClickHouse store becomes a list
of received tuples plus an acceptance flag, and exceptions become Except.
Timestamps are modelled as integers (seconds); timezone.now() becomes an
abstract clock read, one tick per call.
-/

/-- ASCII uppercase letter, the regex class [A-Z]. -/
def isUpperA (c : Char) : Bool :=
  65 ≤ c.toNat && c.toNat ≤ 90

/-- ASCII lowercase letter, the regex class [a-z]. -/
def isLowerA (c : Char) : Bool :=
  97 ≤ c.toNat && c.toNat ≤ 122

/-- ASCII lowercase letter or digit, the regex class [a-z0-9]. -/
def isLowerDigitA (c : Char) : Bool :=
  isLowerA c || (48 ≤ c.toNat && c.toNat ≤ 57)

/-- One pass of Python re.sub("(.)([A-Z][a-z]+)", "\1_\2", s): scan left to
right; a match is any character other than a newline (the default-mode dot),
then an uppercase letter, then a greedy nonempty run of lowercase letters.
On a match, emit the first character, an underscore, and the matched
upper+lower run, then continue after the whole match (matches do not
overlap); otherwise emit one character and advance by one. The first
argument is fuel; the caller passes the length of the list, which each step
strictly exceeds in consumption, so the fuel-exhausted branch is never
taken. -/
def sub1F : Nat → List Char → List Char
  | 0, rest => rest
  | _ + 1, [] => []
  | _ + 1, [c] => [c]
  | fuel + 1, c :: d :: rest =>
    if c.toNat ≠ 10 && isUpperA d && isLowerA (rest.headD '.') then
      c :: '_' :: d :: (rest.takeWhile isLowerA ++ sub1F fuel (rest.dropWhile isLowerA))
    else
      c :: sub1F fuel (d :: rest)

/-- First substitution of _to_snake_case with sufficient fuel. -/
def sub1 (l : List Char) : List Char :=
  sub1F l.length l

/-- One pass of Python re.sub("([a-z0-9])([A-Z])", "\1_\2", s): scan left to
right; on a lowercase-or-digit character immediately followed by an
uppercase letter, emit both with an underscore between them and continue
after the two matched characters; otherwise emit one character and advance
by one. -/
def sub2 : List Char → List Char
  | [] => []
  | [c] => [c]
  | c :: d :: rest =>
    if isLowerDigitA c && isUpperA d then
      c :: '_' :: d :: sub2 rest
    else
      c :: sub2 (d :: rest)

/-- EventLogClientProtocol._to_snake_case: the two regex substitutions in
order, then str.lower() (ASCII lowercasing of the letters involved). -/
def to_snake_case (event_name : String) : String :=
  String.mk ((sub2 (sub1 event_name.data)).map Char.toLower)

/-- C5: the event_type derivation inserts an underscore between a
lowercase/digit and a following uppercase letter and before an
uppercase-run-then-lowercase group, then lowercases; in particular
UserCreated maps to user_created, HTTPRequestLog to http_request_log, and A
to a. -/
theorem to_snake_case_examples :
    to_snake_case "UserCreated" = "user_created" ∧
    to_snake_case "HTTPRequestLog" = "http_request_log" ∧
    to_snake_case "A" = "a" := by
  refine ⟨?_, ?_, ?_⟩ <;> decide

/-- A domain event as seen by the clients: the class name (source of
event_type) and the outcome of event.model_dump_json() — Except.error when
some payload field is not JSON-encodable (pydantic raises a serialization
error), Except.ok with the canonical JSON text otherwise. Serialization is
deterministic, so the outcome is part of the event value. -/
structure ModelEvent where
  className : String
  payloadJson : Except String String
deriving Repr

/-- One converted record: (event_type, event_date_time, environment,
event_context), the shape of ConvertedData entries in client.py. -/
def ConvertedRow : Type := String × Int × String × String

instance : DecidableEq ConvertedRow := by
  unfold ConvertedRow
  infer_instance

instance : Repr ConvertedRow := by
  unfold ConvertedRow
  infer_instance

/-- EventLogClientProtocol._convert_data, shown with an explicit tick for
the clock: the list comprehension produces, per event in order, the tuple
(to_snake_case of the class name, timezone.now() — one clock read per
event, ticks counted from i — , settings.ENVIRONMENT, model_dump_json()).
If model_dump_json raises for some event, the comprehension raises there
and produces nothing; the first failing event wins. -/
def convert_data_from (clock : Nat → Int) (env : String) :
    Nat → List ModelEvent → Except String (List ConvertedRow)
  | _, [] => Except.ok []
  | i, e :: es =>
    match e.payloadJson with
    | Except.error err => Except.error err
    | Except.ok ctx =>
      match convert_data_from clock env (i + 1) es with
      | Except.error err => Except.error err
      | Except.ok rest =>
        Except.ok ((to_snake_case e.className, clock i, env, ctx) :: rest)

/-- EventLogClientProtocol._convert_data starting at clock tick t0. -/
def convert_data (clock : Nat → Int) (t0 : Nat) (env : String)
    (data : List ModelEvent) : Except String (List ConvertedRow) :=
  convert_data_from clock env t0 data

/-- Outcome of ClickhouseEventLogClient.insert: the rows the store received,
whether the DatabaseError handler logged a store error, and the exception
escaping the call, if any. -/
structure DirectInsertResult where
  stored : List ConvertedRow
  loggedError : Bool
  raised : Option String
deriving Repr

/-- ClickhouseEventLogClient.insert: convert the batch (a serialization
error there propagates — only DatabaseError is caught), then submit the
converted rows to the store; a DatabaseError from the store is caught and
logged and the method returns normally. The store is passed in as a
function from the submitted batch to its outcome. -/
def clickhouse_insert (clock : Nat → Int) (t0 : Nat) (env : String)
    (data : List ModelEvent) (store : List ConvertedRow → Except String Unit) :
    DirectInsertResult :=
  match convert_data clock t0 env data with
  | Except.error e => { stored := [], loggedError := false, raised := some e }
  | Except.ok conv =>
    match store conv with
    | Except.ok _ => { stored := conv, loggedError := false, raised := none }
    | Except.error _ => { stored := [], loggedError := true, raised := none }

/-- C4: the Direct-Write insert never raises on a store-level failure: for
every batch whose conversion succeeds and every store error, the call
returns normally, the error is logged, and nothing is stored. -/
theorem clickhouse_insert_swallows_store_failure
    (clock : Nat → Int) (t0 : Nat) (env : String) (data : List ModelEvent)
    (err : String) (h : (convert_data clock t0 env data).isOk = true) :
    (clickhouse_insert clock t0 env data (fun _ => Except.error err)).raised = none ∧
    (clickhouse_insert clock t0 env data (fun _ => Except.error err)).loggedError = true ∧
    (clickhouse_insert clock t0 env data (fun _ => Except.error err)).stored = [] := by
  unfold clickhouse_insert
  cases hc : convert_data clock t0 env data with
  | error e => rw [hc] at h; simp [Except.isOk, Except.toBool] at h
  | ok conv => exact ⟨rfl, rfl, rfl⟩

/-- Witness for C4 at a concrete batch and a failing store. -/
theorem clickhouse_insert_swallows_store_failure_witness :
    (clickhouse_insert (fun t => Int.ofNat t) 0 "Local"
        [{ className := "UserCreated", payloadJson := Except.ok "\x7b\x7d" }]
        (fun _ => Except.error "network down")).raised = none ∧
    (clickhouse_insert (fun t => Int.ofNat t) 0 "Local"
        [{ className := "UserCreated", payloadJson := Except.ok "\x7b\x7d" }]
        (fun _ => Except.error "network down")).loggedError = true ∧
    (clickhouse_insert (fun t => Int.ofNat t) 0 "Local"
        [{ className := "UserCreated", payloadJson := Except.ok "\x7b\x7d" }]
        (fun _ => Except.error "network down")).stored = [] :=
  clickhouse_insert_swallows_store_failure (fun t => Int.ofNat t) 0 "Local"
    [{ className := "UserCreated", payloadJson := Except.ok "\x7b\x7d" }]
    "network down" (by rfl)

/-- One row of the event_log_outbox table (event_logs/models.py):
event_type, event_date_time, environment, event_context, is_sent
(default false), plus the database-assigned id. -/
structure OutboxRow where
  id : Nat
  event_type : String
  event_date_time : Int
  environment : String
  event_context : String
  is_sent : Bool
deriving Repr, DecidableEq

/-- The (event_type, event_date_time, environment, event_context) column
values of a row, in EVENT_LOG_COLUMNS order. -/
def rowTuple (r : OutboxRow) : ConvertedRow :=
  (r.event_type, r.event_date_time, r.environment, r.event_context)

/-- OutboxEventLogClient._save_to_outbox: one EventLogOutbox row per
converted tuple, with is_sent set to False, bulk-created (appended to the
table); ids are assigned sequentially by the database from nextId. -/
def save_to_outbox (nextId : Nat) (converted_data : List ConvertedRow) :
    List OutboxRow :=
  converted_data.enum.map (fun p =>
    { id := nextId + p.1
      event_type := p.2.1
      event_date_time := p.2.2.1
      environment := p.2.2.2.1
      event_context := p.2.2.2.2
      is_sent := false })

/-- OutboxEventLogClient.insert: convert the whole batch first (the list
comprehension in _convert_data runs to completion before anything is
saved), then bulk-create the rows; a serialization error propagates and
reaches the save step never. Returns the new table contents on success. -/
def outbox_insert (clock : Nat → Int) (t0 : Nat) (env : String)
    (db : List OutboxRow) (nextId : Nat) (data : List ModelEvent) :
    Except String (List OutboxRow) :=
  match convert_data clock t0 env data with
  | Except.error e => Except.error e
  | Except.ok conv => Except.ok (db ++ save_to_outbox nextId conv)

/-- Running OutboxEventLogClient.insert against a table: on an exception
the table is left as it was (the error aborts before bulk_create); the
Bool records whether a serialization error escaped to the caller. -/
def outbox_insert_run (clock : Nat → Int) (t0 : Nat) (env : String)
    (db : List OutboxRow) (nextId : Nat) (data : List ModelEvent) :
    List OutboxRow × Bool :=
  match outbox_insert clock t0 env db nextId data with
  | Except.ok db2 => (db2, false)
  | Except.error _ => (db, true)

/-- Conversion fails as soon as one event in the batch has a failing
payload serialization. -/
theorem convert_data_from_error_of_bad_event (clock : Nat → Int)
    (env : String) (data : List ModelEvent) (e : ModelEvent)
    (hmem : e ∈ data) (hbad : e.payloadJson.isOk = false) :
    ∀ i, (convert_data_from clock env i data).isOk = false := by
  induction data with
  | nil => cases hmem
  | cons hd tl ih =>
    intro i
    cases hmem with
    | head =>
      cases hp : e.payloadJson with
      | error m => simp [convert_data_from, hp, Except.isOk, Except.toBool]
      | ok v => rw [hp] at hbad; simp [Except.isOk, Except.toBool] at hbad
    | tail _ hmem2 =>
      cases hp : hd.payloadJson with
      | error m => simp [convert_data_from, hp, Except.isOk, Except.toBool]
      | ok v =>
        have htl := ih hmem2 (i + 1)
        cases hr : convert_data_from clock env (i + 1) tl with
        | error m => simp [convert_data_from, hp, hr, Except.isOk, Except.toBool]
        | ok rest => rw [hr] at htl; simp [Except.isOk, Except.toBool] at htl

/-- C7: if any event in the batch has a payload that is not
JSON-encodable, the Outbox-Write insert raises a serialization error to
the caller and the outbox table is unchanged — no partial prefix of the
batch is written. -/
theorem outbox_insert_serialization_failure (clock : Nat → Int) (t0 : Nat)
    (env : String) (db : List OutboxRow) (nextId : Nat)
    (data : List ModelEvent) (e : ModelEvent) (hmem : e ∈ data)
    (hbad : e.payloadJson.isOk = false) :
    (outbox_insert_run clock t0 env db nextId data).2 = true ∧
    (outbox_insert_run clock t0 env db nextId data).1 = db := by
  have hfail := convert_data_from_error_of_bad_event clock env data e hmem hbad t0
  unfold outbox_insert_run outbox_insert convert_data
  cases hc : convert_data_from clock env t0 data with
  | error m => exact ⟨rfl, rfl⟩
  | ok conv => rw [hc] at hfail; simp [Except.isOk, Except.toBool] at hfail

/-- Witness for C7: a two-event batch whose second payload fails leaves a
one-row table untouched and raises. -/
theorem outbox_insert_serialization_failure_witness :
    (outbox_insert_run (fun t => Int.ofNat t) 0 "Local"
        [{ id := 1, event_type := "user_created", event_date_time := 0,
           environment := "Local", event_context := "\x7b\x7d", is_sent := false }] 2
        [{ className := "UserCreated", payloadJson := Except.ok "\x7b\x7d" },
         { className := "BadEvent", payloadJson := Except.error "not JSON-encodable" }]).2
      = true ∧
    (outbox_insert_run (fun t => Int.ofNat t) 0 "Local"
        [{ id := 1, event_type := "user_created", event_date_time := 0,
           environment := "Local", event_context := "\x7b\x7d", is_sent := false }] 2
        [{ className := "UserCreated", payloadJson := Except.ok "\x7b\x7d" },
         { className := "BadEvent", payloadJson := Except.error "not JSON-encodable" }]).1
      = [{ id := 1, event_type := "user_created", event_date_time := 0,
           environment := "Local", event_context := "\x7b\x7d", is_sent := false }] :=
  outbox_insert_serialization_failure (fun t => Int.ofNat t) 0 "Local"
    [{ id := 1, event_type := "user_created", event_date_time := 0,
       environment := "Local", event_context := "\x7b\x7d", is_sent := false }] 2
    [{ className := "UserCreated", payloadJson := Except.ok "\x7b\x7d" },
     { className := "BadEvent", payloadJson := Except.error "not JSON-encodable" }]
    { className := "BadEvent", payloadJson := Except.error "not JSON-encodable" }
    (by simp) (by rfl)

/-- Outcome of running a body inside ClickhouseEventLogClient.init, the
contextmanager generator: the value the body produced (if it completed),
whether the except-Exception handler logged, whether client.close() ran,
and the exception escaping the with-statement, if any. -/
structure CHScopeResult (α : Type) where
  result : Option α
  loggedError : Bool
  closed : Bool
  raised : Option String
deriving Repr

/-- ClickhouseEventLogClient.init as a contextmanager run against a body:
clickhouse_connect.get_client runs first (a failure there propagates and
nothing is closed); then the body runs at the yield inside
try/except Exception/finally — an exception from the body re-enters the
generator, is caught and logged and not re-raised (so the with-statement
suppresses it), and the finally clause closes the client on every path. -/
def clickhouse_init_scope {α : Type} (acquire : Except String Unit)
    (body : Except String α) : CHScopeResult α :=
  match acquire with
  | Except.error e =>
    { result := none, loggedError := false, closed := false, raised := some e }
  | Except.ok _ =>
    match body with
    | Except.ok a =>
      { result := some a, loggedError := false, closed := true, raised := none }
    | Except.error _ =>
      { result := none, loggedError := true, closed := true, raised := none }

/-- C10: once the connection is acquired, any exception raised in the body
of the scope is caught and logged rather than propagated, and the client is
closed unconditionally — whether the body completed or raised. -/
theorem clickhouse_init_scope_absorbs {α : Type} (body : Except String α) :
    (clickhouse_init_scope (Except.ok ()) body).raised = none ∧
    (clickhouse_init_scope (Except.ok ()) body).closed = true ∧
    (clickhouse_init_scope (Except.ok ()) body).loggedError = !body.isOk := by
  cases body with
  | ok a => exact ⟨rfl, rfl, rfl⟩
  | error e => exact ⟨rfl, rfl, rfl⟩

/-- The three delivery backend variants get_event_saver can produce: the
stub (discard), the ClickHouse direct-write, and the outbox-write client;
the selector returns the chosen class's init factory, modelled by this
tag. -/
inductive EventSaverKind where
  | stub
  | clickhouse
  | outbox
deriving Repr, DecidableEq

/-- get_event_saver: match on the requested type name; for "STUB",
"CLICKHOUSE" and "OUTBOX" return the corresponding class's init factory,
for anything else raise ValueError immediately — before any event is
converted or inserted (the function touches no event and performs no
insert; it only selects). -/
def get_event_saver (event_saver_type : String) : Except String EventSaverKind :=
  if event_saver_type = "STUB" then Except.ok EventSaverKind.stub
  else if event_saver_type = "CLICKHOUSE" then Except.ok EventSaverKind.clickhouse
  else if event_saver_type = "OUTBOX" then Except.ok EventSaverKind.outbox
  else Except.error ("Unknown event saver type: " ++ event_saver_type)

/-- C8: backend selection recognizes exactly the selector values of the
discard, direct-write and outbox-write variants, returning that variant's
factory, and raises a configuration error for every other name, eagerly at
selection time. -/
theorem get_event_saver_spec :
    get_event_saver "STUB" = Except.ok EventSaverKind.stub ∧
    get_event_saver "CLICKHOUSE" = Except.ok EventSaverKind.clickhouse ∧
    get_event_saver "OUTBOX" = Except.ok EventSaverKind.outbox ∧
    ∀ s : String, s ≠ "STUB" → s ≠ "CLICKHOUSE" → s ≠ "OUTBOX" →
      get_event_saver s = Except.error ("Unknown event saver type: " ++ s) := by
  refine ⟨rfl, rfl, rfl, ?_⟩
  intro s h1 h2 h3
  simp [get_event_saver, h1, h2, h3]

/-- Two conversions of the same batch at later and later clock ticks agree
on event_type and event_context and have pointwise non-decreasing
event_time, for a monotone clock. -/
theorem convert_data_from_stable (clock : Nat → Int) (env : String)
    (hm : ∀ a b : Nat, a ≤ b → clock a ≤ clock b)
    (data : List ModelEvent) :
    ∀ (i j : Nat) (c1 c2 : List ConvertedRow), i ≤ j →
      convert_data_from clock env i data = Except.ok c1 →
      convert_data_from clock env j data = Except.ok c2 →
      List.Forall₂ (fun a b : ConvertedRow =>
        a.1 = b.1 ∧ a.2.2.2 = b.2.2.2 ∧ a.2.1 ≤ b.2.1) c1 c2 := by
  induction data with
  | nil =>
    intro i j c1 c2 _ h1 h2
    simp only [convert_data_from] at h1 h2
    cases h1; cases h2
    exact List.Forall₂.nil
  | cons e es ih =>
    intro i j c1 c2 hij h1 h2
    cases hp : e.payloadJson with
    | error m => simp [convert_data_from, hp] at h1
    | ok ctx =>
      cases hr1 : convert_data_from clock env (i + 1) es with
      | error m => simp [convert_data_from, hp, hr1] at h1
      | ok rest1 =>
        cases hr2 : convert_data_from clock env (j + 1) es with
        | error m => simp [convert_data_from, hp, hr2] at h2
        | ok rest2 =>
          simp only [convert_data_from, hp, hr1, hr2] at h1 h2
          cases h1; cases h2
          exact List.Forall₂.cons ⟨rfl, rfl, hm i j hij⟩
            (ih (i + 1) (j + 1) rest1 rest2 (Nat.succ_le_succ hij) hr1 hr2)

/-- C9: converting the same batch twice in immediate succession (the second
conversion starting at a clock tick no earlier than the first, with a
monotone clock) yields records whose event_type and event_context are
identical pairwise and whose event_time is pointwise non-decreasing. -/
theorem convert_data_twice_stable (clock : Nat → Int) (env : String)
    (data : List ModelEvent) (t0 t1 : Nat) (c1 c2 : List ConvertedRow)
    (hm : ∀ a b : Nat, a ≤ b → clock a ≤ clock b) (ht : t0 ≤ t1)
    (h1 : convert_data clock t0 env data = Except.ok c1)
    (h2 : convert_data clock t1 env data = Except.ok c2) :
    List.Forall₂ (fun a b : ConvertedRow =>
      a.1 = b.1 ∧ a.2.2.2 = b.2.2.2 ∧ a.2.1 ≤ b.2.1) c1 c2 :=
  convert_data_from_stable clock env hm data t0 t1 c1 c2 ht h1 h2

/-- Witness for C9 at a concrete one-event batch, with the identity clock
and ticks 0 and 1. -/
theorem convert_data_twice_stable_witness :
    List.Forall₂ (fun a b : ConvertedRow =>
      a.1 = b.1 ∧ a.2.2.2 = b.2.2.2 ∧ a.2.1 ≤ b.2.1)
      [("user_created", (0 : Int), "Local", "\x7b\x7d")]
      [("user_created", (1 : Int), "Local", "\x7b\x7d")] :=
  convert_data_twice_stable (fun t => Int.ofNat t) "Local"
    [{ className := "UserCreated", payloadJson := Except.ok "\x7b\x7d" }] 0 1
    [("user_created", (0 : Int), "Local", "\x7b\x7d")]
    [("user_created", (1 : Int), "Local", "\x7b\x7d")]
    (fun a b h => Int.ofNat_le.mpr h) (by decide) (by rfl) (by rfl)

/-- The logs_to_send list built by the task in tasks.py: a list
comprehension whose elements are generator expressions
(getattr(log, col_name) for col_name in EVENT_LOG_COLUMNS), one per
unsent row. The generators are not consumed until insert_raw passes them
to the ClickHouse driver, after the comprehension has finished; they all
close over the single comprehension-scope variable log, which by then
holds the LAST row of the iteration, so every generator yields the column
values of the last unsent row. The list keeps one element per unsent row,
so len(logs_to_send) is still the number of unsent rows. -/
def logs_to_send (unsent : List OutboxRow) : List ConvertedRow :=
  match unsent.getLast? with
  | none => []
  | some last => unsent.map (fun _ => rowTuple last)

/-- Outcome of one run of send_unsent_logs_to_clickhouse: the outbox table
after the run, the rows the ClickHouse store received during the run, the
returned status string, and whether an exception escaped the task. -/
structure SendRunResult where
  db : List OutboxRow
  store : List ConvertedRow
  status : String
  raised : Bool
deriving Repr, DecidableEq

/-- send_unsent_logs_to_clickhouse (tasks.py). The queryset
EventLogOutbox.objects.select_for_update().filter(is_sent=False) is lazy
and re-evaluated at each use: dbAtRead is the table contents when exists()
and the logs_to_send comprehension evaluate it; appendedDuringRun are rows
other transactions append before the final update(is_sent=True)
re-evaluates it (freshly appended outbox rows always carry
is_sent = false). storeAccepts tells whether the ClickHouse batch insert
succeeds; on failure insert_raw catches the DatabaseError, logs it and
returns normally, so the task proceeds to update(is_sent=True) — which
flips every row matching is_sent=False at update time — and returns the
success status string either way. store0 is the ClickHouse table before
the run. The task raises nothing on any of these paths. -/
def send_unsent_logs_to_clickhouse (dbAtRead appendedDuringRun : List OutboxRow)
    (storeAccepts : Bool) (store0 : List ConvertedRow) : SendRunResult :=
  let unsent := dbAtRead.filter (fun r => !r.is_sent)
  if unsent.isEmpty then
    { db := dbAtRead ++ appendedDuringRun
      store := store0
      status := "No unsent logs to process."
      raised := false }
  else
    let batch := logs_to_send unsent
    let store1 := if storeAccepts then store0 ++ batch else store0
    let dbAtUpdate := dbAtRead ++ appendedDuringRun
    { db := dbAtUpdate.map (fun r => if !r.is_sent then { r with is_sent := true } else r)
      store := store1
      status := "Successfully sent " ++ toString batch.length ++ " logs to Clickhouse."
      raised := false }

/-- delete_sent_logs (tasks.py): cutoff is now minus timedelta(days=30),
in seconds; the rows matching is_sent=True and event_date_time strictly
before the cutoff are deleted and counted; the rest of the table is
untouched. Returns the remaining table, the deleted count and the status
string. -/
def delete_sent_logs (now : Int) (db : List OutboxRow) :
    List OutboxRow × Nat × String :=
  let retention_period := now - 30 * 86400
  let sent_logs := db.filter
    (fun r => r.is_sent && decide (r.event_date_time < retention_period))
  (db.filter (fun r => !(r.is_sent && decide (r.event_date_time < retention_period))),
   sent_logs.length,
   "Deleted " ++ toString sent_logs.length ++ " sent logs.")

/-- C6: the retention job deletes exactly the rows with is_sent = true and
event_date_time strictly older than 30 days before now, keeps every other
row unchanged and in place (the remaining table is a sublist of the old
one), and reports the number deleted in its status string. -/
theorem delete_sent_logs_spec (now : Int) (db : List OutboxRow) :
    (∀ r : OutboxRow, r ∈ (delete_sent_logs now db).1 ↔
      r ∈ db ∧ ¬(r.is_sent = true ∧ r.event_date_time < now - 30 * 86400)) ∧
    (delete_sent_logs now db).1.Sublist db ∧
    (delete_sent_logs now db).2.1 =
      db.countP (fun r => r.is_sent && decide (r.event_date_time < now - 30 * 86400)) ∧
    (delete_sent_logs now db).2.2 =
      "Deleted " ++ toString (delete_sent_logs now db).2.1 ++ " sent logs." := by
  refine ⟨?_, ?_, ?_, ?_⟩
  · intro r
    constructor
    · intro hr
      have hr2 : r ∈ db.filter
          (fun r => !(r.is_sent && decide (r.event_date_time < now - 30 * 86400))) := hr
      have hr3 := List.mem_filter.mp hr2
      refine ⟨hr3.1, ?_⟩
      intro hcon
      have hb := hr3.2
      rw [hcon.1] at hb
      simp at hb
      have hlt := hcon.2
      omega
    · intro hr
      show r ∈ db.filter
        (fun r => !(r.is_sent && decide (r.event_date_time < now - 30 * 86400)))
      refine List.mem_filter.mpr ⟨hr.1, ?_⟩
      by_cases hs : r.is_sent = true
      · have hlt : ¬ r.event_date_time < now - 30 * 86400 :=
          fun hlt => hr.2 ⟨hs, hlt⟩
        simp [hs]
        omega
      · rw [Bool.not_eq_true] at hs
        simp [hs]
  · exact List.filter_sublist db
  · simp [delete_sent_logs, List.countP_eq_length_filter]
  · rfl

/-- C1: evaluation at the failing input. One unsent row, ClickHouse
rejecting the batch: the claim says the row must stay unsent and a failure
status must be returned, but insert_raw swallows the DatabaseError, so the
run marks the row sent anyway, stores nothing, and returns the success
status string (nothing is raised to the invoker). -/
theorem send_run_store_failure_marks_sent_and_reports_success :
    (send_unsent_logs_to_clickhouse
        [{ id := 1, event_type := "user_created", event_date_time := 5,
           environment := "Local", event_context := "p1", is_sent := false }]
        [] false []) =
      { db := [{ id := 1, event_type := "user_created", event_date_time := 5,
                 environment := "Local", event_context := "p1", is_sent := true }]
        store := []
        status := "Successfully sent 1 logs to Clickhouse."
        raised := false } := by
  decide

/-- C2: evaluation at the failing input. Row 1 is unsent at the initial
read; row 2 is appended by another transaction before the final
update(is_sent=True). The lazy queryset re-evaluates its filter at update
time, so the run marks row 2 sent as well, although row 2 was never
submitted to ClickHouse (the store received only the tuple of row 1) and
no claim/commit transaction protects the set. -/
theorem send_run_marks_row_appended_after_claim :
    (send_unsent_logs_to_clickhouse
        [{ id := 1, event_type := "user_created", event_date_time := 5,
           environment := "Local", event_context := "p1", is_sent := false }]
        [{ id := 2, event_type := "payment_received", event_date_time := 6,
           environment := "Local", event_context := "p2", is_sent := false }]
        true []).db =
      [{ id := 1, event_type := "user_created", event_date_time := 5,
         environment := "Local", event_context := "p1", is_sent := true },
       { id := 2, event_type := "payment_received", event_date_time := 6,
         environment := "Local", event_context := "p2", is_sent := true }] ∧
    (send_unsent_logs_to_clickhouse
        [{ id := 1, event_type := "user_created", event_date_time := 5,
           environment := "Local", event_context := "p1", is_sent := false }]
        [{ id := 2, event_type := "payment_received", event_date_time := 6,
           environment := "Local", event_context := "p2", is_sent := false }]
        true []).store =
      [("user_created", (5 : Int), "Local", "p1")] := by
  refine ⟨?_, ?_⟩ <;> decide

/-- C3: evaluation at the failing input. Appending two events through the
Outbox-Write insert and running the job once with the store accepting does
mark exactly the two rows sent, but the two records delivered to
ClickHouse are two copies of the second row's column tuple — the generator
expressions in logs_to_send all close over the loop variable, which holds
the last row when insert_raw finally consumes them — instead of the two
persisted tuples. -/
theorem send_run_delivers_copies_of_last_row :
    outbox_insert_run (fun t => Int.ofNat t) 0 "Local" [] 1
        [{ className := "UserCreated", payloadJson := Except.ok "p1" },
         { className := "OrderPaid", payloadJson := Except.ok "p2" }] =
      ([{ id := 1, event_type := "user_created", event_date_time := 0,
          environment := "Local", event_context := "p1", is_sent := false },
        { id := 2, event_type := "order_paid", event_date_time := 1,
          environment := "Local", event_context := "p2", is_sent := false }], false) ∧
    (send_unsent_logs_to_clickhouse
        [{ id := 1, event_type := "user_created", event_date_time := 0,
           environment := "Local", event_context := "p1", is_sent := false },
         { id := 2, event_type := "order_paid", event_date_time := 1,
           environment := "Local", event_context := "p2", is_sent := false }]
        [] true []).db =
      [{ id := 1, event_type := "user_created", event_date_time := 0,
         environment := "Local", event_context := "p1", is_sent := true },
       { id := 2, event_type := "order_paid", event_date_time := 1,
         environment := "Local", event_context := "p2", is_sent := true }] ∧
    (send_unsent_logs_to_clickhouse
        [{ id := 1, event_type := "user_created", event_date_time := 0,
           environment := "Local", event_context := "p1", is_sent := false },
         { id := 2, event_type := "order_paid", event_date_time := 1,
           environment := "Local", event_context := "p2", is_sent := false }]
        [] true []).store =
      [("order_paid", (1 : Int), "Local", "p2"),
       ("order_paid", (1 : Int), "Local", "p2")] := by
  refine ⟨?_, ?_, ?_⟩ <;> decide
